import Mathlib

/-
Verification of the tabular normalization, merge, and response-parsing
pipeline of balance-sheet-buddy (src/processor.py, src/outputs.py, and the
step-5 classification logic of src/app.py).

Modelling conventions:
- pandas DataFrames are lists of records (or an explicit header/rows pair
  for the model-response parser, whose column set is dynamic);
- Python floats are rationals (the claims under test are about string
  processing and comparisons with zero, not float rounding);
- possibly-null cells are Option values: a None/NaN cell is none;
- string scanning (strip, lower, split, substring search) is implemented
  over List Char so that concrete evaluations reduce in the kernel;
  whitespace and lowercasing are modelled over ASCII, which covers every
  literal the source matches against.
-/

namespace BalanceSheetBuddy

/-- Python whitespace characters (ASCII range), as used by str.strip and
the regex class backslash-s. -/
def isPyWs (c : Char) : Bool :=
  c = ' ' || c = '\t' || c = '\n' || c = '\r' || c = '\x0b' || c = '\x0c'

/-- Remove leading and trailing whitespace from a character list
(Python str.strip with no arguments). -/
def trimChars (cs : List Char) : List Char :=
  ((cs.dropWhile isPyWs).reverse.dropWhile isPyWs).reverse

/-- Split a character list on a separator character. Mirrors Python
str.split(sep): the empty input yields one empty field. -/
def splitOnChar (sep : Char) : List Char → List (List Char)
  | [] => [[]]
  | c :: cs =>
    let rest := splitOnChar sep cs
    if c = sep then
      [] :: rest
    else
      match rest with
      | [] => [[c]]
      | f :: fs => (c :: f) :: fs

/-- Substring containment over character lists (Python operator in for
strings): does hay contain pat as a contiguous run. -/
def listHas (hay pat : List Char) : Bool :=
  match hay with
  | [] => pat.isEmpty
  | _ :: t => pat.isPrefixOf hay || listHas t pat

/-- Lowercase a character list (ASCII, covering every keyword the source
compares against). -/
def lowerChars (cs : List Char) : List Char :=
  cs.map Char.toLower

/-- Case-preserving substring test on strings. -/
def strHas (hay pat : String) : Bool :=
  listHas hay.toList pat.toList

/-- Substring test after lowercasing the haystack, as in the Python idiom
keyword in text.lower(). -/
def strHasLower (hay pat : String) : Bool :=
  listHas (lowerChars hay.toList) pat.toList

/-- Python str.strip on a String. -/
def pyStrip (s : String) : String :=
  String.mk (trimChars s.toList)

/-- Python str.strip().lower() normalization used for account keys. -/
def normKey (s : String) : String :=
  String.mk (lowerChars (trimChars s.toList))

/-- Leading numeric run of a string, as matched by the regex caret
(backslash-d +) in merge_with_mapping and extract_account_number; the
empty result means the regex did not match. -/
def leadingDigits (s : String) : String :=
  String.mk (s.toList.takeWhile Char.isDigit)

/-- Value of a digit run as a natural number. -/
def digitsVal (ds : List Char) : ℕ :=
  ds.foldl (fun a c => 10 * a + (c.toNat - 48)) 0

/-- Parse of a stripped numeric literal in the style of Python float():
optional sign, then digits with an optional single decimal point, at
least one digit overall. Exotic float() inputs (exponents, underscores,
inf/nan) are outside what the repository's data ever carries and are not
modelled; they would simply fail here as unparseable. -/
def pyFloatCore (cs : List Char) : Option ℚ :=
  let sgn : ℚ := match cs with
    | '-' :: _ => -1
    | _ => 1
  let rest : List Char := match cs with
    | '-' :: t => t
    | '+' :: t => t
    | t => t
  let ip := rest.takeWhile Char.isDigit
  let rest2 := rest.dropWhile Char.isDigit
  match rest2 with
  | [] => if ip.isEmpty then none else some (sgn * (digitsVal ip : ℚ))
  | '.' :: t =>
    let fp := t.takeWhile Char.isDigit
    let rest3 := t.dropWhile Char.isDigit
    if ¬ rest3.isEmpty then none
    else if ip.isEmpty && fp.isEmpty then none
    else some (sgn * ((digitsVal ip : ℚ) + (digitsVal fp : ℚ) / (10 ^ fp.length)))
  | _ => none

/-- Character removal and strip phase of clean_currency: drop every
euro sign, dollar sign, pound sign and comma, then strip whitespace
(processor.py line 84). -/
def stripCurrency (s : String) : List Char :=
  trimChars (s.toList.filter (fun c => ¬ (c = '€' || c = '$' || c = '£' || c = ',')))

/-- Embeds clean_currency (processor.py lines 79-88). The raw cell is an
Option String: none models a null/NaN cell (pd.isna). The function is
total, modelling the source's never-raises contract: the try/except
ValueError around float() becomes the Option getD 0. -/
def clean_currency (value : Option String) : ℚ :=
  match value with
  | none => 0
  | some s =>
    if s = "" then 0
    else
      let cs := stripCurrency s
      if cs.isEmpty then 0
      else (pyFloatCore cs).getD 0

/-- Embeds get_balance_type (processor.py lines 333-342). -/
def get_balance_type (debit credit : ℚ) : String :=
  if debit > 0 ∧ credit = 0 then "Debit"
  else if credit > 0 ∧ debit = 0 then "Credit"
  else if debit = 0 ∧ credit = 0 then "Zero"
  else "Mixed"

/-- Embeds the status rule body shared verbatim by outputs.py lines
131-143 and app.py lines 367-379: lowercase the category, then apply the
ordered keyword rules. -/
def infer_status (category balance_type : String) : String :=
  let c := String.mk (lowerChars category.toList)
  if strHas c "asset" && ¬ strHas c "contra" then
    if balance_type = "Debit" then "PASS" else "MISMATCH"
  else if strHas c "liability" || strHas c "equity" then
    if balance_type = "Credit" then "PASS" else "MISMATCH"
  else if strHas c "clearing" then
    if balance_type = "Zero" then "PASS" else "MISMATCH"
  else
    "PASS"

/-- Embeds the app.py fallback infer_status (lines 367-381): the balance
type is recomputed inline as Debit if debit is positive, else Credit if
credit is positive, else Zero, and then the shared rule body applies. -/
def app_infer_status (category : String) (debit credit : ℚ) : String :=
  let balance_type := if debit > 0 then "Debit" else if credit > 0 then "Credit" else "Zero"
  infer_status category balance_type

/-- Result of the model-response table parser: column headers plus string
rows (a pandas DataFrame built from lists of strings, so no cell is NaN). -/
structure DF where
  headers : List String
  rows : List (List String)
deriving DecidableEq

/-- The empty DataFrame returned on parse failure. -/
def DF.empty : DF := ⟨[], []⟩

/-- Header-candidate test of outputs.py line 23: the line contains a pipe
and one of the keywords account, balance, status, commentary in its
lowercased text. -/
def headerCandidate (l : List Char) : Bool :=
  l.contains '|' &&
    (["account", "balance", "status", "commentary"].any
      (fun kw => listHas (lowerChars l) kw.toList))

/-- Characters of the separator-line class in the regex of outputs.py
line 35 (whitespace, dash, pipe, colon). -/
def isSepChar (c : Char) : Bool :=
  isPyWs c || c = '-' || c = '|' || c = ':'

/-- Line filter of outputs.py line 35: keep lines that contain a pipe and
are not pure separator lines (the regex fullmatches a nonempty run of
separator characters; a line containing a pipe is nonempty, so the match
is exactly the all-separator test). -/
def keepTableLine (l : List Char) : Bool :=
  l.contains '|' && ¬ (l.all isSepChar)

/-- Line cleanup of outputs.py lines 37-41: strip, then drop one leading
and one trailing pipe. -/
def cleanTableLine (l : List Char) : List Char :=
  let t := trimChars l
  let t1 := if t.head? = some '|' then t.tail else t
  if t1.getLast? = some '|' then t1.dropLast else t1

/-- Header renaming of outputs.py lines 71-91: canonicalize a column name
by case-insensitive substring match, first rule wins; an unmatched name
is kept as is. (The source only calls rename when the mapping is
nonempty, but renaming with an empty mapping is the identity, so the
guard is dropped.) -/
def canonName (h : String) : String :=
  let hl := String.mk (lowerChars h.toList)
  if strHas hl "account" then "Account"
  else if strHas hl "balance" && strHas hl "type" then "Balance_Type"
  else if strHas hl "amount" then "Amount"
  else if strHas hl "category" && ¬ strHas hl "sub" then "Category"
  else if strHas hl "subcategory" || strHas hl "sub-category" || strHas hl "sub category" then "Subcategory"
  else if strHas hl "comment" then "Commentary"
  else if strHas hl "status" then "Status"
  else h

/-- Pad a cell list on the right with empty cells up to the header count,
or truncate it to the header count (outputs.py lines 58-64; the
zero-cells branch is unreachable because Python split always returns at
least one field). -/
def fitCells (n : ℕ) (cells : List (List Char)) : List (List Char) :=
  if n ≤ cells.length then cells.take n
  else cells ++ List.replicate (n - cells.length) []

/-- Embeds parse_claude_table_response (outputs.py lines 13-93). Total
function: every failure path returns the empty DataFrame, never an
exception. -/
def parse_claude_table_response (response_text : String) : DF :=
  let lines := splitOnChar '\n' (trimChars response_text.toList)
  match lines.findIdx? headerCandidate with
  | none => DF.empty
  | some table_start =>
    let table_lines := ((lines.drop table_start).filter keepTableLine).map cleanTableLine
    if table_lines.length < 2 then DF.empty
    else
      match table_lines with
      | [] => DF.empty
      | hd :: tl =>
        let headers := ((splitOnChar '|' hd).map trimChars).filter (fun h => ¬ h.isEmpty)
        let rows := tl.map (fun l => fitCells headers.length ((splitOnChar '|' l).map trimChars))
        if rows.isEmpty then DF.empty
        else
          ⟨headers.map (fun h => canonName (String.mk h)),
           rows.map (fun r => r.map String.mk)⟩

/-- Trial-balance row entering merge_with_mapping: the frame produced by
parse_trial_balance / clean_data has exactly the columns Account, Debit,
Credit (accounts are non-null there; clean_data has removed null rows). -/
structure TBEntry where
  account : String
  debit : ℚ
  credit : ℚ
deriving DecidableEq

/-- Row of the category-mapping frame built by load_category_mapping:
Account_Key, Category, Subcategory. Category and subcategory cells are
modelled as plain strings (a mapping file row with a null category is
outside the scope of the claims under test). -/
structure MapEntry where
  key : String
  category : String
  subcategory : String
deriving DecidableEq

/-- Merged row after merge_with_mapping: Account, Debit, Credit,
Category, Subcategory (the Account_Key helper column is dropped). -/
structure MRow where
  account : String
  debit : ℚ
  credit : ℚ
  category : String
  subcategory : String
deriving DecidableEq

/-- Intermediate merged row right after the pandas left join: category
and subcategory are Option, none modelling the NaN of an unmatched row. -/
structure JRow where
  account : String
  debit : ℚ
  credit : ℚ
  category : Option String
  subcategory : Option String
deriving DecidableEq

/-- Left-join phase of merge_with_mapping (processor.py lines 174-181):
each trial-balance row is keyed by its stripped lowercased account and
joined against every mapping entry with an equal key, in mapping order; a
row with no match survives once with null category/subcategory. This is
pandas merge with how equal to left: left order preserved, one output
row per matching right row. joinOne is the contribution of a single
ledger row. -/
def joinOne (mapping : List MapEntry) (r : TBEntry) : List JRow :=
  match mapping.filter (fun m => m.key = normKey r.account) with
  | [] => [⟨r.account, r.debit, r.credit, none, none⟩]
  | ms => ms.map (fun m => ⟨r.account, r.debit, r.credit, some m.category, some m.subcategory⟩)

/-- The join over the whole trial balance: one joinOne block per ledger
row, in ledger order. -/
def mergeJoin (tb : List TBEntry) (mapping : List MapEntry) : List JRow :=
  tb.flatMap (joinOne mapping)

/-- Numeric-prefix fallback phase of merge_with_mapping (processor.py
lines 183-196): for each row whose category is still null, take the
leading digit run of the raw account string; if nonempty, fill category
and subcategory from the first mapping entry whose key starts with that
run. -/
def fillByNum (mapping : List MapEntry) (j : JRow) : JRow :=
  match j.category with
  | some _ => j
  | none =>
    let num := leadingDigits j.account
    if num = "" then j
    else
      match mapping.find? (fun m => num.toList.isPrefixOf m.key.toList) with
      | some m => { j with category := some m.category, subcategory := some m.subcategory }
      | none => j

/-- Sentinel-fill phase of merge_with_mapping (processor.py lines
199-200): remaining null categories become Unmapped, null subcategories
become Unknown; then the key column is dropped (line 203). -/
def fillUnmapped (j : JRow) : MRow :=
  ⟨j.account, j.debit, j.credit, j.category.getD "Unmapped", j.subcategory.getD "Unknown"⟩

/-- Result table of merge_with_mapping (processor.py lines 168-205),
composition of the three phases. -/
def mergeRows (tb : List TBEntry) (mapping : List MapEntry) : List MRow :=
  ((mergeJoin tb mapping).map (fillByNum mapping)).map fillUnmapped

/-- Modelled from the spec's merge contract (section 4.4 / claim C5), for
comparison with the source-derived mergeRows: per ledger row, exact
normalized-key matches take each matching entry; otherwise the first
mapping entry whose key starts with the account's leading digit run;
otherwise the Unmapped/Unknown sentinels. -/
def specMergeRow (mapping : List MapEntry) (r : TBEntry) : List MRow :=
  match mapping.filter (fun m => m.key = normKey r.account) with
  | [] =>
    let num := leadingDigits r.account
    if num = "" then [⟨r.account, r.debit, r.credit, "Unmapped", "Unknown"⟩]
    else
      match mapping.find? (fun m => num.toList.isPrefixOf m.key.toList) with
      | some m => [⟨r.account, r.debit, r.credit, m.category, m.subcategory⟩]
      | none => [⟨r.account, r.debit, r.credit, "Unmapped", "Unknown"⟩]
  | ms => ms.map (fun m => ⟨r.account, r.debit, r.credit, m.category, m.subcategory⟩)

/-- The trial-balance DataFrame object passed to merge_with_mapping, as a
mutable frame: its rows plus the optional Account_Key column (none when
the column is absent, as it is before the call). -/
structure TBFrame where
  rows : List TBEntry
  accountKeyCol : Option (List String)
deriving DecidableEq

/-- Embeds merge_with_mapping including its effect on its arguments
(processor.py lines 168-205). The assignment on line 174 adds the
Account_Key column to the caller's frame in place, so the call is
modelled state-passing style: it returns the post-call state of the
tb_df argument, the post-call state of the mapping_df argument (which
the function never writes), and the result table. The Account_Key values
used by the join are exactly normKey of each row's account, which is how
mergeRows keys the join. -/
def merge_with_mapping (tb : TBFrame) (mapping : List MapEntry) :
    TBFrame × List MapEntry × List MRow :=
  let keys := tb.rows.map (fun r => normKey r.account)
  (⟨tb.rows, some keys⟩, mapping, mergeRows tb.rows mapping)

/-- Row of the frame passed to clean_data (output of
parse_trial_balance): account may be a null cell. -/
structure CRow where
  account : Option String
  debit : ℚ
  credit : ℚ
deriving DecidableEq

/-- Python str() of an account cell as pandas astype(str) renders it: a
NaN cell prints as the string nan. (clean_data only applies this after
null rows are removed, so the nan branch is unreachable there.) -/
def pyStr (a : Option String) : String :=
  match a with
  | none => "nan"
  | some s => s

/-- Row-start total test of clean_data line 114-115: the regex matches
optional leading whitespace, then total case-insensitively, then one
whitespace or dash character (anchored at the string start, searched via
str.contains whose caret restricts it to the start). -/
def totalStartMatch (s : String) : Bool :=
  let t := s.toList.dropWhile isPyWs
  "total".toList.isPrefixOf (lowerChars t) &&
    match t.drop 5 with
    | c :: _ => isPyWs c || c = '-'
    | [] => false

/-- Exact total-word test of clean_data lines 118-119: the regex
fullmatches optional surrounding whitespace around one of the five
aggregate words, case-insensitively; equivalently the stripped lowercased
text is one of them. -/
def totalExactMatch (s : String) : Bool :=
  ["total", "subtotal", "sub-total", "grand total", "sum"].contains
    (String.mk (lowerChars (trimChars s.toList)))

/-- Opening-balance test of clean_data line 125: optional leading
whitespace, the word opening, at least one whitespace character, the word
balance (anchored at the start). -/
def openingBalanceMatch (s : String) : Bool :=
  let t := s.toList.dropWhile isPyWs
  "opening".toList.isPrefixOf (lowerChars t) &&
    (let u := t.drop 7
     (¬ (u.takeWhile isPyWs).isEmpty) &&
       "balance".toList.isPrefixOf (lowerChars (u.dropWhile isPyWs)))

/-- Embeds clean_data (processor.py lines 103-127): the five row filters
in source order; reset_index does not change the row list. -/
def clean_data (df : List CRow) : List CRow :=
  (((((df.filter (fun r => r.account.isSome)).filter
      (fun r => ¬ (pyStrip (pyStr r.account) = ""))).filter
      (fun r => ¬ totalStartMatch (pyStr r.account))).filter
      (fun r => ¬ totalExactMatch (pyStr r.account))).filter
      (fun r => ¬ (r.debit = 0 ∧ r.credit = 0))).filter
      (fun r => ¬ openingBalanceMatch (pyStr r.account))

/-- Spreadsheet cell of the classification output: fallback records carry
a numeric Amount while records taken from the parsed model table carry
strings. -/
inductive Cell where
  | str : String → Cell
  | num : ℚ → Cell
deriving DecidableEq

/-- Does a cell hold a non-empty value (used to state the non-empty
Status guarantee). -/
def Cell.nonEmptyStr : Cell → Prop
  | .str s => s ≠ ""
  | .num _ => True

/-- Classification record with the seven required output columns of
create_classification_excel (outputs.py line 164). -/
structure CRecord where
  account : Cell
  balance_type : Cell
  amount : Cell
  category : Cell
  subcategory : Cell
  status : Cell
  commentary : Cell
deriving DecidableEq

/-- Balance-type lambda of outputs.py lines 118-121 (also app.py lines
382-385): Debit wins when debit is positive, regardless of credit. -/
def fallbackBalanceType (debit credit : ℚ) : String :=
  if debit > 0 then "Debit" else if credit > 0 then "Credit" else "Zero"

/-- Amount lambda of outputs.py lines 124-127: the debit when positive,
else the credit. -/
def fallbackAmount (debit credit : ℚ) : ℚ :=
  if debit > 0 then debit else credit

/-- Commentary generator of outputs.py lines 149-159. -/
def generateCommentary (status category balance_type : String) : String :=
  if status = "PASS" then category ++ " with " ++ balance_type ++ " balance - Correct"
  else if status = "MISMATCH" then
    category ++ " with " ++ balance_type ++ " balance - Incorrect (should be opposite)"
  else category ++ " - Review required"

/-- Fallback record built from one merged trial-balance row
(outputs.py lines 114-161: Balance_Type, Amount, infer_status,
generated commentary). -/
def fallbackRecord (r : MRow) : CRecord :=
  let bt := fallbackBalanceType r.debit r.credit
  let status := infer_status r.category bt
  ⟨.str r.account, .str bt, .num (fallbackAmount r.debit r.credit),
   .str r.category, .str r.subcategory, .str status,
   .str (generateCommentary status r.category bt)⟩

/-- Column projection of the ensure-required-columns step of outputs.py
lines 163-170 applied to a parsed row: a column absent from the parsed
headers is filled with the empty string; a present column takes the
row's cell at the first index of that header. -/
def parsedCell (df : DF) (cells : List String) (col : String) : Cell :=
  match df.headers.indexOf? col with
  | some j => .str (cells.getD j "")
  | none => .str ""

/-- Record built from one row of the parsed model table after the
ensure-required-columns fill. -/
def parsedRecord (df : DF) (cells : List String) : CRecord :=
  ⟨parsedCell df cells "Account", parsedCell df cells "Balance_Type",
   parsedCell df cells "Amount", parsedCell df cells "Category",
   parsedCell df cells "Subcategory", parsedCell df cells "Status",
   parsedCell df cells "Commentary"⟩

/-- Embeds the record assembly of create_classification_excel
(outputs.py lines 96-170), stopping before the mechanical Excel
serialization. The tb_df argument is the merged trial balance, whose
schema is Account, Debit, Credit, Category, Subcategory, so the
added-column guards of lines 117, 123, 130, 148 are all taken in the
fallback branch. The fallback condition of line 113 is: parsed result
empty, or fewer parsed rows than ledger rows, or no Status column. -/
def createClassificationRecords (analysis_text : String) (tb_df : List MRow) :
    List CRecord :=
  let result := parse_claude_table_response analysis_text
  if result.rows.isEmpty || decide (result.rows.length < tb_df.length)
      || !(result.headers.contains "Status") then
    tb_df.map fallbackRecord
  else
    result.rows.map (parsedRecord result)

/-- Concrete ledger table for the fallback-guarantee counterexample: one
merged trial-balance row. -/
def exTB1 : List MRow := [⟨"A", 500, 0, "Asset", "Cash"⟩]

/-- Concrete model response whose parsed table has a Status column
containing only empty-string values (no usable status), with two data
rows. -/
def exResp1 : String := "Account | Status\nA |\nB |"

/-- Concrete ledger frame for the merge side-effect counterexample. -/
def exFrame1 : TBFrame := ⟨[⟨"Cash", 1, 0⟩], none⟩

/-- Concrete ledger table for the one-row-per-ledger-row counterexample. -/
def exTB2 : List TBEntry := [⟨"cash", 1, 0⟩]

/-- Concrete mapping with two entries sharing the same normalized key. -/
def exMap2 : List MapEntry := [⟨"cash", "A", "X"⟩, ⟨"cash", "B", "Y"⟩]

/-- Modelled from the spec's fixed status rule table (section 4.5 /
claim C3), for comparison with the source-derived infer_status: the
ordered rules over the lowercased category and the balance type. -/
def statusRuleTable (category balance_type : String) : String :=
  let c := String.mk (lowerChars category.toList)
  if strHas c "asset" && ¬ strHas c "contra" then
    if balance_type = "Debit" then "PASS" else "MISMATCH"
  else if strHas c "liability" || strHas c "equity" then
    if balance_type = "Credit" then "PASS" else "MISMATCH"
  else if strHas c "clearing" then
    if balance_type = "Zero" then "PASS" else "MISMATCH"
  else
    "PASS"

/-- Abstract chain of six row filters, the shape of clean_data; used to
prove idempotence once for arbitrary predicates. -/
def filterChain {α : Type} (p1 p2 p3 p4 p5 p6 : α → Bool) (l : List α) : List α :=
  (((((l.filter p1).filter p2).filter p3).filter p4).filter p5).filter p6

lemma filterChain_collapse {α : Type} (p1 p2 p3 p4 p5 p6 : α → Bool) (l : List α) :
    filterChain p1 p2 p3 p4 p5 p6 l
      = l.filter (fun a => p6 a && (p5 a && (p4 a && (p3 a && (p2 a && p1 a))))) := by
  simp only [filterChain, List.filter_filter]

lemma filterChain_idem {α : Type} (p1 p2 p3 p4 p5 p6 : α → Bool) (l : List α) :
    filterChain p1 p2 p3 p4 p5 p6 (filterChain p1 p2 p3 p4 p5 p6 l)
      = filterChain p1 p2 p3 p4 p5 p6 l := by
  rw [filterChain_collapse, filterChain_collapse, List.filter_filter]
  apply List.filter_congr
  intro x _
  cases p1 x <;> cases p2 x <;> cases p3 x <;> cases p4 x <;> cases p5 x <;> cases p6 x <;> rfl

lemma clean_currency_eq_parse (s : String) :
    clean_currency (some s) = (pyFloatCore (stripCurrency s)).getD 0 := by
  by_cases h : s = ""
  · subst h; rfl
  · simp only [clean_currency, if_neg h]
    by_cases h2 : (stripCurrency s).isEmpty
    · rw [if_pos h2]
      have h3 : stripCurrency s = [] := by simpa using h2
      rw [h3]; rfl
    · rw [if_neg h2]

lemma iteTwo {c : Prop} [Decidable c] {a b : String}
    (ha : a = "PASS" ∨ a = "MISMATCH") (hb : b = "PASS" ∨ b = "MISMATCH") :
    (if c then a else b) = "PASS" ∨ (if c then a else b) = "MISMATCH" := by
  by_cases h : c
  · rw [if_pos h]; exact ha
  · rw [if_neg h]; exact hb

lemma infer_status_total (category balance_type : String) :
    infer_status category balance_type = "PASS"
      ∨ infer_status category balance_type = "MISMATCH" := by
  unfold infer_status
  exact iteTwo (iteTwo (Or.inl rfl) (Or.inr rfl))
    (iteTwo (iteTwo (Or.inl rfl) (Or.inr rfl))
      (iteTwo (iteTwo (Or.inl rfl) (Or.inr rfl)) (Or.inl rfl)))

/-- Claim C7: the row cleaner is idempotent, clean(clean(T)) = clean(T)
for every table T: a second application of the five removal predicates
removes no further rows. -/
theorem claim_C7_clean_idempotent (df : List CRow) :
    clean_data (clean_data df) = clean_data df := by
  have h : clean_data = filterChain
      (fun r => r.account.isSome)
      (fun r => ¬ (pyStrip (pyStr r.account) = ""))
      (fun r => ¬ totalStartMatch (pyStr r.account))
      (fun r => ¬ totalExactMatch (pyStr r.account))
      (fun r => ¬ (r.debit = 0 ∧ r.credit = 0))
      (fun r => ¬ openingBalanceMatch (pyStr r.account)) := rfl
  rw [h]
  exact filterChain_idem _ _ _ _ _ _ df

/-- Claim C8: the currency normalizer is total (never raises) and equals
the strip-then-parse composition for every string cell, with null, empty
and unparseable cells yielding 0; concretely the dollar amount parses to
1200.50 and the empty and n/a cells parse to 0. -/
theorem claim_C8_clean_currency :
    (∀ s : String, clean_currency (some s) = (pyFloatCore (stripCurrency s)).getD 0)
    ∧ clean_currency none = 0
    ∧ clean_currency (some "$1,200.50") = 1200.50
    ∧ clean_currency (some "") = 0
    ∧ clean_currency (some "n/a") = 0 := by
  refine ⟨clean_currency_eq_parse, rfl, ?_, rfl, by decide⟩
  rw [clean_currency_eq_parse]
  rw [show stripCurrency "$1,200.50" = ['1', '2', '0', '0', '.', '5', '0'] from by decide]
  have h1 : pyFloatCore ['1', '2', '0', '0', '.', '5', '0']
      = some ((1 : ℚ) * ((digitsVal ['1', '2', '0', '0'] : ℚ)
          + (digitsVal ['5', '0'] : ℚ) / 10 ^ (['5', '0'] : List Char).length)) := rfl
  rw [h1, show digitsVal ['1', '2', '0', '0'] = 1200 from by decide,
    show digitsVal ['5', '0'] = 50 from by decide]
  simp only [Option.getD_some]
  norm_num

/-- Claim C10: get_balance_type treats Mixed as the catch-all else
branch: any debit/credit pair outside the three positive cases, in
particular a negative debit with zero credit, yields Mixed rather than
an error; and clean_currency preserves the sign of a parseable negative
cell, so such inputs are reachable from the loading interface. -/
theorem claim_C10_mixed_catch_all :
    (∀ debit credit : ℚ, ¬ (debit > 0 ∧ credit = 0) → ¬ (credit > 0 ∧ debit = 0) →
      ¬ (debit = 0 ∧ credit = 0) → get_balance_type debit credit = "Mixed")
    ∧ get_balance_type (-100) 0 = "Mixed"
    ∧ clean_currency (some "-100") = -100 := by
  refine ⟨?_, by decide, ?_⟩
  · intro d c h1 h2 h3
    unfold get_balance_type
    rw [if_neg h1, if_neg h2, if_neg h3]
  · rw [clean_currency_eq_parse]
    rw [show stripCurrency "-100" = ['-', '1', '0', '0'] from by decide]
    have h1 : pyFloatCore ['-', '1', '0', '0']
        = some ((-1 : ℚ) * (digitsVal ['1', '0', '0'] : ℚ)) := rfl
    rw [h1, show digitsVal ['1', '0', '0'] = 100 from by decide]
    simp only [Option.getD_some]
    norm_num

/-- Witness for claim C10 at a concrete out-of-case input. -/
theorem claim_C10_witness : get_balance_type (-7) 3 = "Mixed" :=
  claim_C10_mixed_catch_all.1 (-7) 3 (by norm_num) (by norm_num) (by norm_num)

/-- Claim C3: the status inferencer equals the spec's fixed rule table
for every category and balance type, is total (always exactly PASS or
MISMATCH, never an error), and the scenario row with category Liability,
debit 300, credit 0 yields MISMATCH. -/
theorem claim_C3_status_rule_table :
    (∀ category balance_type : String,
      infer_status category balance_type = statusRuleTable category balance_type)
    ∧ (∀ category balance_type : String,
      infer_status category balance_type = "PASS"
        ∨ infer_status category balance_type = "MISMATCH")
    ∧ app_infer_status "Liability" 300 0 = "MISMATCH" :=
  ⟨fun _ _ => rfl, infer_status_total, by decide⟩

/-- Counterexample for claim C4: a row with debit 5 and credit 5 (both
positive) and category Liability is classified MISMATCH, not PASS, by
the status inferencer of the classification paths. -/
theorem claim_C4_counterexample :
    (5 : ℚ) > 0 ∧ app_infer_status "Liability" 5 5 = "MISMATCH"
      ∧ "MISMATCH" ≠ "PASS" := by
  refine ⟨by norm_num, by decide, by decide⟩

/-- Amended claim C4: for every row with positive debit (in particular
both amounts positive), the inline balance-type computation of the
classification paths yields Debit, never Mixed, so the inferred status
is the rule table's verdict at Debit; and even a literal Mixed balance
type does not default to PASS for an asset category. -/
theorem claim_C4_amended :
    (∀ (category : String) (debit credit : ℚ), debit > 0 →
      app_infer_status category debit credit = infer_status category "Debit")
    ∧ infer_status "Asset" "Mixed" = "MISMATCH" := by
  constructor
  · intro cat d c h
    unfold app_infer_status
    rw [if_pos h]
  · decide

/-- Witness for the amended claim C4 at the counterexample row. -/
theorem claim_C4_witness :
    app_infer_status "Liability" 5 5 = infer_status "Liability" "Debit" :=
  claim_C4_amended.1 "Liability" 5 5 (by norm_num)

/-- Claim C2: the model-response table parser is a total function (no
failure path raises); when no line of the input contains both a pipe and
one of the header keywords it returns the empty result, and an input
whose table is a header line with no data rows also returns the empty
result. -/
theorem claim_C2_parser_robust :
    (∀ s : String,
      (∀ l ∈ splitOnChar '\n' (trimChars s.toList), headerCandidate l = false) →
      parse_claude_table_response s = DF.empty)
    ∧ parse_claude_table_response "no pipes here" = DF.empty
    ∧ parse_claude_table_response "| Account | Status |\n| --- | --- |" = DF.empty := by
  refine ⟨?_, by decide, by decide⟩
  intro s h
  simp only [parse_claude_table_response]
  rw [List.findIdx?_eq_none_iff.mpr h]

/-- Witness for claim C2 at a concrete keyword-free input. -/
theorem claim_C2_witness : parse_claude_table_response "hello world" = DF.empty :=
  claim_C2_parser_robust.1 "hello world" (by decide)

/-- Counterexample for claim C9: merge_with_mapping does have a side
effect on its ledger argument — after the call the frame has gained an
Account_Key column, so its post-state differs from the frame passed in. -/
theorem claim_C9_counterexample : (merge_with_mapping exFrame1 []).1 ≠ exFrame1 := by
  decide

/-- Amended claim C9: merge_with_mapping leaves the mapping argument
unchanged and does not alter the ledger's rows, but it adds an
Account_Key column (the normalized account keys) to the ledger argument
in place; the returned result table is the merge of the rows as passed. -/
theorem claim_C9_amended (tb : TBFrame) (mapping : List MapEntry) :
    (merge_with_mapping tb mapping).2.1 = mapping
    ∧ (merge_with_mapping tb mapping).1.rows = tb.rows
    ∧ (merge_with_mapping tb mapping).1.accountKeyCol
        = some (tb.rows.map (fun r => normKey r.account))
    ∧ (merge_with_mapping tb mapping).2.2 = mergeRows tb.rows mapping :=
  ⟨rfl, rfl, rfl, rfl⟩

lemma mergeRows_cons (mapping : List MapEntry) (r : TBEntry) (tb : List TBEntry) :
    mergeRows (r :: tb) mapping
      = ((joinOne mapping r).map (fillByNum mapping)).map fillUnmapped
          ++ mergeRows tb mapping := by
  unfold mergeRows mergeJoin
  rw [List.flatMap_cons, List.map_append, List.map_append]

lemma mergeRow_spec (mapping : List MapEntry) (r : TBEntry) :
    ((joinOne mapping r).map (fillByNum mapping)).map fillUnmapped
      = specMergeRow mapping r := by
  unfold joinOne specMergeRow
  cases h : mapping.filter (fun m => m.key = normKey r.account) with
  | nil =>
    simp only [List.map_cons, List.map_nil, fillByNum]
    by_cases hn : leadingDigits r.account = ""
    · simp [hn, fillUnmapped]
    · cases hf : mapping.find?
          (fun m => (leadingDigits r.account).toList.isPrefixOf m.key.toList) with
      | none => simp [hn, hf, fillUnmapped]
      | some m => simp [hn, hf, fillUnmapped]
  | cons a as =>
    simp only [List.map_map]
    apply List.map_congr_left
    intro m _
    rfl

lemma mergeRows_eq_spec (tb : List TBEntry) (mapping : List MapEntry) :
    mergeRows tb mapping = tb.flatMap (specMergeRow mapping) := by
  induction tb with
  | nil => rfl
  | cons r tb ih =>
    rw [mergeRows_cons, mergeRow_spec, List.flatMap_cons, ih]

/-- Claim C5: the merge populates category and subcategory for every
output row — exact normalized-key matches take the matching entry,
otherwise the first mapping entry whose key starts with the account's
leading digit run, otherwise the Unmapped/Unknown sentinels — stated as
equality with the spec's per-row merge contract; and the scenario row
1000-Cash with no exact match is populated from the key
1000 - operating cash by the numeric-prefix fallback. -/
theorem claim_C5_merge_populates :
    (∀ (tb : List TBEntry) (mapping : List MapEntry),
      mergeRows tb mapping = tb.flatMap (specMergeRow mapping))
    ∧ mergeRows [⟨"1000-Cash", 500, 0⟩] [⟨"1000 - operating cash", "Asset", "Cash"⟩]
        = [⟨"1000-Cash", 500, 0, "Asset", "Cash"⟩] :=
  ⟨mergeRows_eq_spec, by decide⟩

/-- Counterexample for claim C6: with two mapping entries sharing one
normalized key, the single ledger row cash yields two merged rows, not
one per ledger row. -/
theorem claim_C6_counterexample :
    exTB2.length = 1 ∧ (mergeRows exTB2 exMap2).length = 2 := by
  refine ⟨by decide, by decide⟩

lemma filter_key_len_le_one (mapping : List MapEntry) (k : String)
    (h : (mapping.map (fun m => m.key)).Nodup) :
    (mapping.filter (fun m => m.key = k)).length ≤ 1 := by
  induction mapping with
  | nil => simp
  | cons a l ih =>
    rw [List.map_cons, List.nodup_cons] at h
    obtain ⟨ha, hl⟩ := h
    by_cases hk : a.key = k
    · rw [List.filter_cons_of_pos (by simpa using hk)]
      have hnil : l.filter (fun m => m.key = k) = [] := by
        rw [List.filter_eq_nil_iff]
        intro m hm
        simp only [decide_eq_true_eq]
        intro hmk
        exact ha (List.mem_map.mpr ⟨m, hm, hmk.trans hk.symm⟩)
      rw [hnil]
      simp
    · rw [List.filter_cons_of_neg (by simpa using hk)]
      exact ih hl

lemma specMergeRow_len (mapping : List MapEntry) (r : TBEntry)
    (h : (mapping.map (fun m => m.key)).Nodup) :
    (specMergeRow mapping r).length = 1 := by
  unfold specMergeRow
  cases hf : mapping.filter (fun m => m.key = normKey r.account) with
  | nil =>
    split
    · dsimp only
      split
      · simp
      · split <;> simp
    · simp_all
  | cons a as =>
    have hle := filter_key_len_le_one mapping (normKey r.account) h
    rw [hf] at hle
    have has : as = [] := by
      simpa using hle
    subst has
    simp

/-- Amended claim C6: the merge yields exactly one output row per input
ledger row whenever the mapping's normalized keys are pairwise distinct;
with duplicate keys a ledger row is duplicated once per matching entry
(see the counterexample), so the 1-to-at-most-1 relationship only holds
for duplicate-free mapping tables. -/
theorem claim_C6_amended (tb : List TBEntry) (mapping : List MapEntry)
    (h : (mapping.map (fun m => m.key)).Nodup) :
    (mergeRows tb mapping).length = tb.length := by
  induction tb with
  | nil => rfl
  | cons r tb ih =>
    rw [mergeRows_cons, List.length_append, mergeRow_spec, specMergeRow_len mapping r h,
      ih, List.length_cons]
    omega

/-- Witness for the amended claim C6 on a duplicate-free mapping. -/
theorem claim_C6_witness :
    (mergeRows [⟨"a", 1, 0⟩] [⟨"a", "A", "X"⟩, ⟨"b", "B", "Y"⟩]).length
      = ([⟨"a", 1, 0⟩] : List TBEntry).length :=
  claim_C6_amended [⟨"a", 1, 0⟩] [⟨"a", "A", "X"⟩, ⟨"b", "B", "Y"⟩] (by decide)

/-- Counterexample for claim C1: a model response whose parsed table has
a Status column holding only empty strings (so no non-empty Status
value) is treated as usable by the code, which checks only column
presence: for the one-row ledger the assembly emits the two parsed rows
as records, so neither exactly-one-record-per-ledger-row nor
non-empty-Status holds. -/
theorem claim_C1_counterexample :
    (parse_claude_table_response exResp1).headers = ["Account", "Status"]
    ∧ (parse_claude_table_response exResp1).rows = [["A", ""], ["B", ""]]
    ∧ exTB1.length = 1
    ∧ (createClassificationRecords exResp1 exTB1).length = 2
    ∧ ∀ rec ∈ createClassificationRecords exResp1 exTB1, rec.status = Cell.str "" := by
  refine ⟨by decide, by decide, by decide, by decide, by decide⟩

/-- Amended claim C1: when the parsed table is empty, has fewer rows
than the ledger, or has no Status column at all (not merely no non-empty
Status value), the assembly takes the deterministic fallback and yields
exactly one record per ledger row, each with Status PASS or MISMATCH
computed by the status inferencer. -/
theorem claim_C1_amended (tb : List MRow) (txt : String)
    (h : (parse_claude_table_response txt).rows = []
      ∨ (parse_claude_table_response txt).rows.length < tb.length
      ∨ "Status" ∉ (parse_claude_table_response txt).headers) :
    createClassificationRecords txt tb = tb.map fallbackRecord
    ∧ (createClassificationRecords txt tb).length = tb.length
    ∧ ∀ rec ∈ createClassificationRecords txt tb,
        rec.status = Cell.str "PASS" ∨ rec.status = Cell.str "MISMATCH" := by
  have hc : ((parse_claude_table_response txt).rows.isEmpty
      || decide ((parse_claude_table_response txt).rows.length < tb.length)
      || !((parse_claude_table_response txt).headers.contains "Status")) = true := by
    rcases h with h | h | h
    · simp [h]
    · simp [h]
    · simp [h]
  have he : createClassificationRecords txt tb = tb.map fallbackRecord := by
    unfold createClassificationRecords
    rw [if_pos hc]
  refine ⟨he, ?_, ?_⟩
  · rw [he, List.length_map]
  · rw [he]
    intro rec hrec
    obtain ⟨r, _, rfl⟩ := List.mem_map.mp hrec
    rcases infer_status_total r.category (fallbackBalanceType r.debit r.credit) with h2 | h2
    · left
      simp [fallbackRecord, h2]
    · right
      simp [fallbackRecord, h2]

/-- Witness for the amended claim C1 at a response with no table. -/
theorem claim_C1_witness :
    createClassificationRecords "no table here" exTB1 = exTB1.map fallbackRecord
    ∧ (createClassificationRecords "no table here" exTB1).length = exTB1.length
    ∧ ∀ rec ∈ createClassificationRecords "no table here" exTB1,
        rec.status = Cell.str "PASS" ∨ rec.status = Cell.str "MISMATCH" :=
  claim_C1_amended exTB1 "no table here" (by decide)

end BalanceSheetBuddy
